import Mathlib

/-
Verification of the synthetic-transaction producer
(src/producer/data_generator.py, src/producer/kinesis_producer.py,
src/producer/main.py) against its natural-language specification.

Shallow embedding notes.
* Randomness.  The Python code draws from three distinct entropy sources:
  the random module and the Faker library, both of which are seeded when a
  seed is supplied (random.seed / Faker.seed), and uuid.uuid4(), which reads
  OS entropy and is never affected by either seed.  The embedding makes the
  sources explicit as abstract streams in the Entropy structure: for a
  seeded construction fakerStr, fakerCoord and randA are functions of the
  seed, while uuidHex is not.  random.choice(xs) is modelled as indexing
  with a draw modulo the list length.
* Python floats are modelled as rationals; round(x, 2) is modelled by
  round2, rounding half to even as the Python builtin does on exact values.
* Exceptions are modelled with Except PyError; the Kinesis service and the
  per-batch delivery outcomes are modelled as explicit input streams.
-/

/-- Exception kinds raised by the generator code paths that the claims
exercise. -/
inductive PyError where
  | valueError
  | attributeError
deriving DecidableEq

/-- Abstract entropy sources.  uuidHex n is the n-th value of
uuid.uuid4().hex[:12] (unseeded OS entropy); fakerStr and fakerCoord are
the successive Faker string and coordinate outputs; randA the successive
draws of the random module used for choices.  For a fixed seed the last
three streams are determined by the seed; uuidHex is not. -/
structure Entropy where
  uuidHex : Nat → String
  fakerStr : Nat → String
  fakerCoord : Nat → ℚ
  randA : Nat → Nat

/-- Positions consumed so far in each entropy stream. -/
structure Ctr where
  u : Nat
  fs : Nat
  fc : Nat
  ra : Nat
deriving DecidableEq

def ctr0 : Ctr := { u := 0, fs := 0, fc := 0, ra := 0 }

structure Location where
  city : String
  state : String
  country : String
  latitude : ℚ
  longitude : ℚ
deriving DecidableEq

structure Merchant where
  merchant_id : String
  merchant_name : String
  merchant_category : String
  merchant_location : Location
deriving DecidableEq

structure Customer where
  customer_id : String
  customer_name : String
  customer_email : String
  customer_phone : String
  home_location : Location
deriving DecidableEq

/-- The ten transaction categories (data_generator.py, lines 68-79).  In
the source this list is assigned to the categories attribute only AFTER the
merchant and customer pools are generated. -/
def categoriesList : List String :=
  ["grocery", "restaurant", "gas_station", "online_retail", "entertainment",
   "travel", "electronics", "clothing", "healthcare", "utilities"]

/-- One iteration of the _generate_merchants loop (data_generator.py, lines
84-97).  The argument attr is the value of the categories attribute of the
object at call time: none when the attribute has not been assigned yet, in
which case the read random.choice(self.categories) at line 88 raises
AttributeError, exactly as in the source where the attribute is assigned
only after the pools are built. -/
def genMerchantAt (E : Entropy) (attr : Option (List String)) (c : Ctr) :
    Except PyError (Merchant × Ctr) :=
  match attr with
  | none => Except.error PyError.attributeError
  | some cats =>
      Except.ok
        ({ merchant_id := "M" ++ E.uuidHex c.u
           merchant_name := E.fakerStr c.fs
           merchant_category := cats.getD (E.randA c.ra % cats.length) ""
           merchant_location :=
             { city := E.fakerStr (c.fs + 1)
               state := E.fakerStr (c.fs + 2)
               country := "US"
               latitude := E.fakerCoord c.fc
               longitude := E.fakerCoord (c.fc + 1) } },
         { u := c.u + 1, fs := c.fs + 3, fc := c.fc + 2, ra := c.ra + 1 })

/-- The _generate_merchants loop (lines 81-98): n merchants, threading the
entropy counters. -/
def genMerchants (E : Entropy) (attr : Option (List String)) :
    Nat → Ctr → Except PyError (List Merchant × Ctr)
  | 0, c => Except.ok ([], c)
  | n + 1, c =>
      match genMerchantAt E attr c with
      | Except.error e => Except.error e
      | Except.ok (m, c1) =>
          match genMerchants E attr n c1 with
          | Except.error e => Except.error e
          | Except.ok (ms, c2) => Except.ok (m :: ms, c2)

/-- One iteration of the _generate_customers loop (lines 103-117).  It
reads only Faker and uuid sources and never touches the categories
attribute, so it cannot raise. -/
def genCustomerAt (E : Entropy) (c : Ctr) : Customer × Ctr :=
  ({ customer_id := "C" ++ E.uuidHex c.u
     customer_name := E.fakerStr c.fs
     customer_email := E.fakerStr (c.fs + 1)
     customer_phone := E.fakerStr (c.fs + 2)
     home_location :=
       { city := E.fakerStr (c.fs + 3)
         state := E.fakerStr (c.fs + 4)
         country := "US"
         latitude := E.fakerCoord c.fc
         longitude := E.fakerCoord (c.fc + 1) } },
   { u := c.u + 1, fs := c.fs + 5, fc := c.fc + 2, ra := c.ra })

/-- The _generate_customers loop (lines 100-118). -/
def genCustomers (E : Entropy) : Nat → Ctr → List Customer × Ctr
  | 0, c => ([], c)
  | n + 1, c =>
      let p := genCustomerAt E c
      let q := genCustomers E n p.2
      (p.1 :: q.1, q.2)

/-- State of a fully constructed TransactionGenerator. -/
structure GenState where
  fraud_ratio : ℚ
  num_merchants : ℤ
  num_customers : ℤ
  merchants : List Merchant
  customers : List Customer
  categories : List String
  ctr : Ctr
deriving DecidableEq

/-- TransactionGenerator.__init__ (data_generator.py, lines 31-79).
The fraud-ratio guard (line 50) runs first; then the merchant pool is
generated (line 64) with the categories attribute still unassigned (it is
assigned only at line 68), then the customer pool (line 65).  Counts are
Python ints; range(n) for n below one is empty, hence Int.toNat. -/
def initGen (E : Entropy) (fraud_ratio : ℚ) (num_merchants num_customers : ℤ) :
    Except PyError GenState :=
  if ¬ (0 ≤ fraud_ratio ∧ fraud_ratio ≤ 1) then Except.error PyError.valueError
  else
    match genMerchants E none num_merchants.toNat ctr0 with
    | Except.error e => Except.error e
    | Except.ok (ms, c1) =>
        let p := genCustomers E num_customers.toNat c1
        Except.ok
          { fraud_ratio := fraud_ratio
            num_merchants := num_merchants
            num_customers := num_customers
            merchants := ms
            customers := p.1
            categories := categoriesList
            ctr := p.2 }

/-- A concrete entropy assignment used to instantiate theorems. -/
def E0 : Entropy :=
  { uuidHex := fun _ => ""
    fakerStr := fun _ => ""
    fakerCoord := fun _ => 0
    randA := fun _ => 0 }

/-- Two entropy assignments that agree on every stream a seed controls
(Faker strings, Faker coordinates, draws of the random module) and differ
only in the uuid stream, which no seed controls.  They model two runs of
the process constructed with the same seed. -/
def E1seed : Entropy :=
  { uuidHex := fun _ => "aaaaaaaaaaaa"
    fakerStr := fun _ => "w"
    fakerCoord := fun _ => 0
    randA := fun _ => 0 }

/-- Second run with the same seed: identical seeded streams, fresh OS
entropy for uuid4. -/
def E2seed : Entropy :=
  { uuidHex := fun _ => "bbbbbbbbbbbb"
    fakerStr := fun _ => "w"
    fakerCoord := fun _ => 0
    randA := fun _ => 0 }

/-- Projection used to state facts about the outcome of a construction:
none when construction raised, otherwise the merchant pool. -/
def merchantsOf : Except PyError GenState → Option (List Merchant)
  | Except.ok st => some st.merchants
  | Except.error _ => none

/-- Projection: none when construction raised, otherwise the number of
customers in the pool. -/
def customersLenOf : Except PyError GenState → Option Nat
  | Except.ok st => some st.customers.length
  | Except.error _ => none

/-- Rounding half to even on rationals, modelling the Python builtin round
applied to exact values. -/
def roundHalfEven (q : ℚ) : ℤ :=
  if q - ⌊q⌋ < 1/2 then ⌊q⌋
  else if 1/2 < q - ⌊q⌋ then ⌊q⌋ + 1
  else if ⌊q⌋ % 2 = 0 then ⌊q⌋ else ⌊q⌋ + 1

/-- Python round(x, 2): round to two decimal places. -/
def round2 (q : ℚ) : ℚ := (roundHalfEven (q * 100) : ℚ) / 100

/-- The field of a generated transaction that get_fraud_statistics reads:
the ground-truth label (data_generator.py, line 269). -/
structure Transaction where
  is_fraud : Bool
deriving DecidableEq

structure FraudStats where
  total_transactions : Nat
  fraud_count : Nat
  legitimate_count : Nat
  fraud_percentage : ℚ
deriving DecidableEq

/-- TransactionGenerator.get_fraud_statistics (data_generator.py, lines
258-276).  The method does not read any generator state. -/
def getFraudStatistics (ts : List Transaction) : FraudStats :=
  let total := ts.length
  let fraud_count := (ts.filter (fun t => t.is_fraud)).length
  { total_transactions := total
    fraud_count := fraud_count
    legitimate_count := total - fraud_count
    fraud_percentage :=
      if 0 < total then round2 ((fraud_count : ℚ) / (total : ℚ) * 100) else 0 }

/-- The category_ranges dictionary of _generate_normal_amount
(data_generator.py, lines 201-212), with the .get fallback (10, 200) of
line 214 for unknown categories. -/
def categoryRanges (category : String) : ℤ × ℤ :=
  if category = "grocery" then (20, 150)
  else if category = "restaurant" then (15, 100)
  else if category = "gas_station" then (30, 80)
  else if category = "online_retail" then (25, 300)
  else if category = "entertainment" then (20, 150)
  else if category = "travel" then (100, 1000)
  else if category = "electronics" then (50, 800)
  else if category = "clothing" then (30, 250)
  else if category = "healthcare" then (50, 500)
  else if category = "utilities" then (50, 300)
  else (10, 200)

/-- TransactionGenerator._generate_normal_amount (lines 198-221).
The draw random.gauss(mean, std) is modelled as mean + std * z with an
arbitrary standard-normal value z; the result is clamped into the category
range exactly as in line 221. -/
def generateNormalAmount (category : String) (z : ℚ) : ℚ :=
  let r := categoryRanges category
  let min_amt : ℚ := r.1
  let max_amt : ℚ := r.2
  let mean := (min_amt + max_amt) / 2
  let std := (max_amt - min_amt) / 4
  let amount := mean + std * z
  max min_amt (min max_amt amount)

/-- TransactionGenerator._generate_fraud_amount (lines 223-232).
random.choice on the two fraud types is modelled by the Boolean highValue;
random.uniform(3000, 10000) is modelled as 3000 + (10000 - 3000) * u with a
draw u in the unit interval. -/
def generateFraudAmount (category : String) (highValue : Bool) (u z : ℚ) : ℚ :=
  if highValue then 3000 + (10000 - 3000) * u
  else generateNormalAmount category z

/-- The amount bounds asserted by the specification for one category and
one pair of draws: the legitimate amount lies in the category range and
stays there after 2-decimal rounding, the high-value fraud amount lies in
the interval from 3000 to 10000 and stays there after rounding, both are
positive after rounding, and the non-high-value fraud amount is exactly the
legitimate amount. -/
def amountSpec (category : String) (z u : ℚ) : Prop :=
  (((categoryRanges category).1 : ℚ) ≤ generateNormalAmount category z)
  ∧ generateNormalAmount category z ≤ ((categoryRanges category).2 : ℚ)
  ∧ 0 < generateNormalAmount category z
  ∧ (((categoryRanges category).1 : ℚ) ≤ round2 (generateNormalAmount category z))
  ∧ round2 (generateNormalAmount category z) ≤ ((categoryRanges category).2 : ℚ)
  ∧ 0 < round2 (generateNormalAmount category z)
  ∧ (3000 : ℚ) ≤ generateFraudAmount category true u z
  ∧ generateFraudAmount category true u z ≤ 10000
  ∧ (3000 : ℚ) ≤ round2 (generateFraudAmount category true u z)
  ∧ round2 (generateFraudAmount category true u z) ≤ 10000
  ∧ 0 < round2 (generateFraudAmount category true u z)
  ∧ generateFraudAmount category false u z = generateNormalAmount category z

/-
Embedding of KinesisProducer.put_records_batch and _handle_failed_records
(kinesis_producer.py, lines 197-279).  The Kinesis service is modelled as a
list of responses, consumed one per service call: throws stands for a
BotoCoreError or ClientError raised by the call itself, and results k errs
for a normal response with FailedRecordCount k and per-record entries whose
n-th flag is true exactly when that entry carries an ErrorCode.  Records
are abstract values of type alpha with a serialized byte size given by the
size argument (the code serializes with json.dumps; only the length
matters here).  The function returns none when the modelled response list
runs out, and otherwise the returned counts dictionary, the metrics after
the call, and the responses left for later calls.
-/

structure Metrics where
  total_records_sent : Nat
  total_records_failed : Nat
  total_batches_sent : Nat
  total_bytes_sent : Nat
deriving DecidableEq

/-- Initial metrics of a fresh producer (kinesis_producer.py, lines 78-83),
also the state produced by reset_metrics (lines 290-298). -/
def metrics0 : Metrics :=
  { total_records_sent := 0, total_records_failed := 0
    total_batches_sent := 0, total_bytes_sent := 0 }

inductive ServiceResponse where
  | throws
  | results (failedRecordCount : Nat) (errs : List Bool)
deriving DecidableEq

/-- The failed-record collection loop of _handle_failed_records (lines
265-273): entries of the response list flagged with an ErrorCode select
the original record at the same index. -/
def failedSubset {α : Type} (records : List α) (errs : List Bool) : List α :=
  ((records.zip errs).filter (fun p => p.2)).map Prod.fst

/-- The metrics update of a put_records call (lines 228-235): successful
count, failed count, one batch, and the serialized bytes of the whole
batch are accumulated. -/
def batchMetrics {α : Type} (size : α → Nat) (records : List α) (k : Nat)
    (m : Metrics) : Metrics :=
  { total_records_sent := m.total_records_sent + (records.length - k)
    total_records_failed := m.total_records_failed + k
    total_batches_sent := m.total_batches_sent + 1
    total_bytes_sent := m.total_bytes_sent + (records.map size).sum }

/-- KinesisProducer.put_records_batch (lines 197-253) together with the
retry path _handle_failed_records (lines 255-279), which re-enters
put_records_batch on the failed subset and discards the returned counts of
that inner call.  An empty record list returns counts (0, 0) without
consuming a response (lines 209-210).  A raised transport error marks the
whole batch failed and returns counts (0, n) without retrying (lines
250-253).  Otherwise the counts derived from the first response are
returned (line 248) after the retry call, if any, has updated the
metrics. -/
def putRecordsBatch {α : Type} (size : α → Nat) :
    List ServiceResponse → List α → Metrics →
    Option ((Nat × Nat) × Metrics × List ServiceResponse)
  | rs, [], m => some ((0, 0), m, rs)
  | [], _ :: _, _ => none
  | ServiceResponse.throws :: rest, a :: as, m =>
      some ((0, (a :: as).length),
        { m with total_records_failed :=
            m.total_records_failed + (a :: as).length }, rest)
  | ServiceResponse.results k errs :: rest, a :: as, m =>
      let m1 := batchMetrics size (a :: as) k m
      if 0 < k then
        match failedSubset (a :: as) errs with
        | [] => some (((a :: as).length - k, k), m1, rest)
        | b :: bs =>
            match putRecordsBatch size rest (b :: bs) m1 with
            | none => none
            | some (_, m2, rest2) => some (((a :: as).length - k, k), m2, rest2)
      else some (((a :: as).length - k, k), m1, rest)

/-
Embedding of the batch loop of run_producer (main.py, lines 150-201).
Per iteration the loop checks total_sent < num_transactions and the
shutdown flag, generates and sends a batch, and adds the returned
successful count to total_sent.  The successful count of the i-th batch
send is an input stream outcomes i; the value of the global
shutdown_requested flag as observed before the i-th iteration is a stream
shutdown i.  runLoop executes at most fuel iterations and returns the
final state (upon which the code emits the final metrics report, lines
189-201) or none if the loop is still running after fuel iterations.
-/

structure LoopState where
  total_sent : Nat
  batch_count : Nat
deriving DecidableEq

/-- One loop iteration (main.py, lines 156-183): send a batch and add its
successful count to the running total. -/
def loopStep (outcomes : Nat → Nat) (s : LoopState) : LoopState :=
  { total_sent := s.total_sent + outcomes s.batch_count
    batch_count := s.batch_count + 1 }

/-- The while condition of main.py line 154. -/
def loopCond (target : Nat) (shutdown : Nat → Bool) (s : LoopState) : Bool :=
  decide (s.total_sent < target) && !(shutdown s.batch_count)

/-- The producer loop, run for at most fuel iterations. -/
def runLoop (target : Nat) (outcomes : Nat → Nat) (shutdown : Nat → Bool) :
    Nat → LoopState → Option LoopState
  | 0, s => if loopCond target shutdown s then none else some s
  | fuel + 1, s =>
      if loopCond target shutdown s then
        runLoop target outcomes shutdown fuel (loopStep outcomes s)
      else some s

/-- Start state of the loop (main.py, lines 150-151). -/
def loop0 : LoopState := { total_sent := 0, batch_count := 0 }

/-- Termination of the producer loop: some finite number of iterations
reaches a state in which the loop exits and the final metrics report
runs. -/
def producerTerminates (target : Nat) (outcomes : Nat → Nat)
    (shutdown : Nat → Bool) : Prop :=
  ∃ fuel s, runLoop target outcomes shutdown fuel loop0 = some s

/-
Helper lemmas.
-/

theorem genCustomers_length (E : Entropy) :
    ∀ (n : Nat) (c : Ctr), ((genCustomers E n c).1).length = n := by
  intro n
  induction n with
  | zero => intro c; rfl
  | succ k ih => intro c; simp [genCustomers, ih]

theorem genMerchants_err (E : Entropy) (n : Nat) (c : Ctr) :
    genMerchants E none (n + 1) c = Except.error PyError.attributeError := rfl

theorem roundHalfEven_bounds (q : ℚ) :
    q - 1/2 ≤ (roundHalfEven q : ℚ) ∧ (roundHalfEven q : ℚ) ≤ q + 1/2 := by
  have h1 : (⌊q⌋ : ℚ) ≤ q := Int.floor_le q
  have h2 : q < ⌊q⌋ + 1 := Int.lt_floor_add_one q
  unfold roundHalfEven
  split_ifs <;> constructor <;> push_cast <;> linarith

theorem round2_bounds (a b : ℤ) (x : ℚ) (ha : (a : ℚ) ≤ x) (hb : x ≤ (b : ℚ)) :
    (a : ℚ) ≤ round2 x ∧ round2 x ≤ (b : ℚ) := by
  obtain ⟨hl, hr⟩ := roundHalfEven_bounds (x * 100)
  constructor
  · have hq : ((100 * a - 1 : ℤ) : ℚ) < (roundHalfEven (x * 100) : ℚ) := by
      push_cast
      linarith
    have hz : (100 * a - 1 : ℤ) < roundHalfEven (x * 100) := by exact_mod_cast hq
    have hz2 : (100 * a : ℤ) ≤ roundHalfEven (x * 100) := by omega
    have hc : ((100 * a : ℤ) : ℚ) ≤ (roundHalfEven (x * 100) : ℚ) := by
      exact_mod_cast hz2
    rw [round2]
    push_cast at hc ⊢
    linarith
  · have hq : (roundHalfEven (x * 100) : ℚ) < ((100 * b + 1 : ℤ) : ℚ) := by
      push_cast
      linarith
    have hz : roundHalfEven (x * 100) < (100 * b + 1 : ℤ) := by exact_mod_cast hq
    have hz2 : roundHalfEven (x * 100) ≤ (100 * b : ℤ) := by omega
    have hc : (roundHalfEven (x * 100) : ℚ) ≤ ((100 * b : ℤ) : ℚ) := by
      exact_mod_cast hz2
    rw [round2]
    push_cast at hc ⊢
    linarith

theorem categoryRanges_facts (category : String) :
    0 < (categoryRanges category).1
      ∧ (categoryRanges category).1 ≤ (categoryRanges category).2 := by
  unfold categoryRanges
  split_ifs <;> exact ⟨by decide, by decide⟩

theorem runLoop_stuck_at_zero :
    ∀ (fuel : Nat) (s : LoopState), s.total_sent = 0 →
      runLoop 1 (fun _ => 0) (fun _ => false) fuel s = none := by
  intro fuel
  induction fuel with
  | zero =>
      intro s hs
      simp [runLoop, loopCond, hs]
  | succ k ih =>
      intro s hs
      have hstep : (loopStep (fun _ => 0) s).total_sent = 0 := by
        simp [loopStep, hs]
      simp [runLoop, loopCond, hs, ih _ hstep]

theorem runLoop_of_done (target : Nat) (outcomes : Nat → Nat)
    (shutdown : Nat → Bool) :
    ∀ (n : Nat) (s : LoopState),
      loopCond target shutdown ((loopStep outcomes)^[n] s) = false →
      ∃ s2, runLoop target outcomes shutdown n s = some s2
        ∧ loopCond target shutdown s2 = false := by
  intro n
  induction n with
  | zero =>
      intro s h
      simp only [Function.iterate_zero, id] at h
      exact ⟨s, by simp [runLoop, h], h⟩
  | succ k ih =>
      intro s h
      by_cases hc : loopCond target shutdown s
      · rw [Function.iterate_succ_apply] at h
        obtain ⟨s2, h1, h2⟩ := ih (loopStep outcomes s) h
        exact ⟨s2, by simp [runLoop, hc, h1], h2⟩
      · exact ⟨s, by simp [runLoop, hc], by simpa using hc⟩

/-
Claim theorems.
-/

/-- Claim C1.  The out-of-range half of the claim holds: for any
fraud_ratio outside the unit interval, construction fails with a ValueError
before any pool generation, whatever the entropy and the counts.  The
in-range half is contradicted by the code: at the inputs of the test
test_generator_initialization (fraud_ratio one tenth, one hundred
merchants, two hundred customers) construction does not succeed but raises
AttributeError, because _generate_merchants reads the categories attribute
before __init__ assigns it. -/
theorem C1_construction_validation :
    (∀ (E : Entropy) (r : ℚ) (nm nc : ℤ), ¬ (0 ≤ r ∧ r ≤ 1) →
        initGen E r nm nc = Except.error PyError.valueError)
  ∧ (∀ (E : Entropy),
        initGen E (1/10) 100 200 = Except.error PyError.attributeError) := by
  constructor
  · intro E r nm nc h
    simp only [initGen, if_pos h]
  · intro E
    have h : ¬ ¬ ((0:ℚ) ≤ 1/10 ∧ (1/10:ℚ) ≤ 1) := by norm_num
    simp only [initGen, if_neg h]
    rfl

/-- Witness for C1 at a concrete out-of-range input. -/
theorem C1_construction_validation_witness :
    initGen E0 (3/2) 7 9 = Except.error PyError.valueError :=
  C1_construction_validation.1 E0 (3/2) 7 9 (by norm_num)

/-- Claim C2.  Same-seed determinism fails on the code in two ways.
First, at the inputs of the test test_reproducibility_with_seed (any seed,
default pool sizes) construction raises AttributeError for every entropy
assignment, so no first transaction exists at all.  Second, the merchant
identifiers are built from the uuid stream, which seeding does not
control: two runs whose seeded streams (Faker strings, Faker coordinates,
random-module draws) are identical but whose uuid streams differ produce
different merchant identifiers at the same pool position, even when the
pool step is given the categories list it was intended to see. -/
theorem C2_seed_determinism_fails :
    (∀ (E : Entropy),
        initGen E (1/20) 1000 5000 = Except.error PyError.attributeError)
  ∧ E1seed.fakerStr = E2seed.fakerStr
  ∧ E1seed.fakerCoord = E2seed.fakerCoord
  ∧ E1seed.randA = E2seed.randA
  ∧ (∃ p1 p2, genMerchantAt E1seed (some categoriesList) ctr0 = Except.ok p1
      ∧ genMerchantAt E2seed (some categoriesList) ctr0 = Except.ok p2
      ∧ p1.1.merchant_id ≠ p2.1.merchant_id) := by
  refine ⟨?_, rfl, rfl, rfl, ⟨_, _, rfl, rfl, by decide⟩⟩
  intro E
  have h : ¬ ¬ ((0:ℚ) ≤ 1/20 ∧ (1/20:ℚ) ≤ 1) := by norm_num
  simp only [initGen, if_neg h]
  rfl

/-- Counterexample to claim C3: with target 1, no cancellation, and every
batch reporting zero successful records, the producer loop of run_producer
never exits, for any amount of fuel. -/
theorem C3_counterexample_zero_success_diverges :
    ¬ producerTerminates 1 (fun _ => 0) (fun _ => false) := by
  rintro ⟨fuel, s, h⟩
  rw [runLoop_stuck_at_zero fuel loop0 rfl] at h
  exact Option.noConfusion h

/-- Claim C3 as amended.  The loop terminates and reaches the final
metrics report exactly when some iterate of the loop body falsifies the
loop condition, that is, reaches total_sent at or above the target or
observes the cancellation flag; the final state then satisfies that exit
condition.  Without such an iterate (in particular when every batch
reports zero successes and cancellation never arrives) the loop runs
forever. -/
theorem C3_loop_terminates_iff_done_reached :
    ∀ (target : Nat) (outcomes : Nat → Nat) (shutdown : Nat → Bool),
      (∃ n, loopCond target shutdown ((loopStep outcomes)^[n] loop0) = false) →
      ∃ fuel s, runLoop target outcomes shutdown fuel loop0 = some s
        ∧ (target ≤ s.total_sent ∨ shutdown s.batch_count = true) := by
  rintro target outcomes shutdown ⟨n, hn⟩
  obtain ⟨s2, h1, h2⟩ := runLoop_of_done target outcomes shutdown n loop0 hn
  refine ⟨n, s2, h1, ?_⟩
  cases hsh : shutdown s2.batch_count with
  | true => exact Or.inr rfl
  | false =>
      left
      simp [loopCond, hsh] at h2
      omega

/-- Witness for the amended C3: with target 2 and every batch delivering
one record, the loop exits after two iterations with the target reached. -/
theorem C3_loop_terminates_witness :
    ∃ fuel s, runLoop 2 (fun _ => 1) (fun _ => false) fuel loop0 = some s
      ∧ (2 ≤ s.total_sent ∨ (fun _ => false) s.batch_count = true) :=
  C3_loop_terminates_iff_done_reached 2 (fun _ => 1) (fun _ => false)
    ⟨2, by decide⟩

/-- Counterexample to claim C4: two records are sent, the first response
flags the second record, the retried resubmission fully succeeds (the
metrics show both records eventually sent), yet the counts returned to the
caller are successful 1, failed 1 and not the claimed successful 2,
failed 0. -/
theorem C4_counterexample_retry_not_reflected :
    putRecordsBatch (fun _ => 1)
      [ServiceResponse.results 1 [false, true], ServiceResponse.results 0 [false]]
      [0, 1] metrics0
      = some ((1, 1),
          { total_records_sent := 2, total_records_failed := 1
            total_batches_sent := 2, total_bytes_sent := 3 }, [])
    ∧ ((1, 1) : Nat × Nat) ≠ (2, 0) := ⟨by decide, by decide⟩

/-- Claim C4 as amended.  When the first response carries
FailedRecordCount k with at least one record flagged, the flagged subset
(selected by original index) is resubmitted through the same
put_records_batch path, and whatever that retry returns, the counts
reported to the caller are those of the first response: successful
n - k and failed k; only the metrics reflect the retry outcome. -/
theorem C4_first_response_counts :
    ∀ {α : Type} (size : α → Nat) (a : α) (as : List α) (k : Nat)
      (errs : List Bool) (rest : List ServiceResponse) (m : Metrics)
      (b : α) (bs : List α) (c2 : Nat × Nat) (m2 : Metrics)
      (rest2 : List ServiceResponse),
      k ≤ (a :: as).length → 0 < k →
      failedSubset (a :: as) errs = b :: bs →
      putRecordsBatch size rest (b :: bs) (batchMetrics size (a :: as) k m)
        = some (c2, m2, rest2) →
      putRecordsBatch size (ServiceResponse.results k errs :: rest) (a :: as) m
        = some (((a :: as).length - k, k), m2, rest2) := by
  intro α size a as k errs rest m b bs c2 m2 rest2 hk hkpos hfs hrec
  simp only [putRecordsBatch, hfs, if_pos hkpos, hrec]

/-- Witness for the amended C4: one record, flagged by the first response,
is resubmitted and the resubmission hits a transport error; the reported
counts are those of the first response. -/
theorem C4_first_response_counts_witness :
    putRecordsBatch (fun _ => 1)
      [ServiceResponse.results 1 [true], ServiceResponse.throws]
      [5] metrics0
      = some ((0, 1),
          { total_records_sent := 0, total_records_failed := 2
            total_batches_sent := 1, total_bytes_sent := 1 }, []) := by
  have h := C4_first_response_counts (fun _ => 1) 5 [] 1 [true]
    [ServiceResponse.throws] metrics0 5 [] (0, 1)
    { total_records_sent := 0, total_records_failed := 2
      total_batches_sent := 1, total_bytes_sent := 1 } []
    (by decide) (by decide) (by decide) (by decide)
  exact h

/-- Claim C5.  When the transport call itself raises, put_records_batch
returns counts (0, n) for the n records of the batch, raises nothing to
the caller, adds n to the failed-records metric leaving every other
counter unchanged, and consumes no further response (no retry of that
batch). -/
theorem C5_transport_failure_degrades :
    ∀ {α : Type} (size : α → Nat) (rest : List ServiceResponse) (a : α)
      (as : List α) (m : Metrics),
      putRecordsBatch size (ServiceResponse.throws :: rest) (a :: as) m
        = some ((0, (a :: as).length),
            { m with total_records_failed :=
                m.total_records_failed + (a :: as).length }, rest) := by
  intro α size rest a as m
  rfl

/-- Claim C6.  get_fraud_statistics returns the list length as total, the
number of fraud-labelled transactions as fraud_count, their difference as
legitimate_count, and the rounded percentage, with zero (and no division)
on the empty list; on 80 legitimate plus 20 fraudulent transactions it
returns exactly total 100, fraud 20, legitimate 80, percentage 20. -/
theorem C6_fraud_statistics :
    (∀ ts : List Transaction,
      (getFraudStatistics ts).total_transactions = ts.length
      ∧ (getFraudStatistics ts).fraud_count
          = (ts.filter (fun t => t.is_fraud)).length
      ∧ (getFraudStatistics ts).legitimate_count
          = (getFraudStatistics ts).total_transactions
              - (getFraudStatistics ts).fraud_count
      ∧ (getFraudStatistics ts).fraud_percentage
          = if 0 < ts.length then
              round2 (((ts.filter (fun t => t.is_fraud)).length : ℚ)
                / (ts.length : ℚ) * 100)
            else 0)
  ∧ getFraudStatistics
        (List.replicate 80 ({ is_fraud := false } : Transaction)
          ++ List.replicate 20 ({ is_fraud := true } : Transaction))
      = { total_transactions := 100, fraud_count := 20
          legitimate_count := 80, fraud_percentage := 20 }
  ∧ getFraudStatistics []
      = { total_transactions := 0, fraud_count := 0
          legitimate_count := 0, fraud_percentage := 0 } := by
  refine ⟨fun ts => ⟨rfl, rfl, rfl, rfl⟩, ?_, rfl⟩
  have hlen : (List.replicate 80 ({ is_fraud := false } : Transaction)
      ++ List.replicate 20 ({ is_fraud := true } : Transaction)).length = 100 := by
    decide
  have hfil : ((List.replicate 80 ({ is_fraud := false } : Transaction)
      ++ List.replicate 20 ({ is_fraud := true } : Transaction)).filter
        (fun t => t.is_fraud)).length = 20 := by decide
  simp only [getFraudStatistics, hlen, hfil]
  norm_num [round2, roundHalfEven]

/-- Claim C7.  An empty batch returns counts (0, 0), consumes no service
response, and leaves the metrics untouched. -/
theorem C7_empty_batch_no_transport :
    ∀ (size : Nat → Nat) (rs : List ServiceResponse) (m : Metrics),
      putRecordsBatch size rs ([] : List Nat) m = some ((0, 0), m, rs) := by
  intro size rs m
  cases rs <;> simp [putRecordsBatch]

/-- Counterexample to claim C8: constructing with zero merchants (a count
at or below zero) and a valid fraud ratio does not fail; it succeeds and
builds an empty merchant pool. -/
theorem C8_counterexample_zero_merchants_accepted :
    merchantsOf (initGen E0 (1/20) 0 5) = some [] := by
  have h : ¬ ¬ ((0:ℚ) ≤ 1/20 ∧ (1/20:ℚ) ≤ 1) := by norm_num
  simp only [initGen, if_neg h]
  rfl

/-- Claim C8 as amended.  __init__ performs no validation of the
population counts: with a valid fraud ratio and num_merchants at or below
zero, construction succeeds, the merchant pool is empty, and the customer
pool has max(num_customers, 0) members; nonpositive counts are never
rejected. -/
theorem C8_no_count_validation :
    ∀ (E : Entropy) (r : ℚ) (nm nc : ℤ), 0 ≤ r → r ≤ 1 → nm ≤ 0 →
      merchantsOf (initGen E r nm nc) = some []
      ∧ customersLenOf (initGen E r nm nc) = some nc.toNat := by
  intro E r nm nc h0 h1 hnm
  have hcond : ¬ ¬ (0 ≤ r ∧ r ≤ 1) := not_not_intro ⟨h0, h1⟩
  have htn : nm.toNat = 0 := Int.toNat_of_nonpos hnm
  simp only [initGen, if_neg hcond, htn]
  exact ⟨rfl, by simp [genMerchants, customersLenOf, genCustomers_length]⟩

/-- Witness for the amended C8 at a concrete nonpositive merchant count. -/
theorem C8_no_count_validation_witness :
    merchantsOf (initGen E0 1 (-3) 2) = some []
    ∧ customersLenOf (initGen E0 1 (-3) 2) = some (2 : ℤ).toNat :=
  C8_no_count_validation E0 1 (-3) 2 (by norm_num) (by norm_num) (by norm_num)

/-- Claim C9.  For every category and all draws, the legitimate amount is
clamped into the category range (the fallback range applying to unknown
categories), the high-value fraud amount is uniform in the interval from
3000 to 10000, the non-high-value fraud amount equals the legitimate one,
and all amounts remain in range and positive after 2-decimal rounding. -/
theorem C9_amount_positive_in_range :
    ∀ (category : String) (z u : ℚ), 0 ≤ u → u ≤ 1 →
      amountSpec category z u := by
  intro category z u hu0 hu1
  obtain ⟨hpos, hle⟩ := categoryRanges_facts category
  have hposq : (0 : ℚ) < ((categoryRanges category).1 : ℚ) := by
    exact_mod_cast hpos
  have hleq : ((categoryRanges category).1 : ℚ)
      ≤ ((categoryRanges category).2 : ℚ) := by exact_mod_cast hle
  have hlo : ((categoryRanges category).1 : ℚ)
      ≤ generateNormalAmount category z := le_max_left _ _
  have hhi : generateNormalAmount category z
      ≤ ((categoryRanges category).2 : ℚ) :=
    max_le hleq (min_le_left _ _)
  obtain ⟨hr1, hr2⟩ := round2_bounds (categoryRanges category).1
    (categoryRanges category).2 (generateNormalAmount category z) hlo hhi
  have hfa : generateFraudAmount category true u z = 3000 + (10000 - 3000) * u :=
    rfl
  have hf1 : (3000 : ℚ) ≤ generateFraudAmount category true u z := by
    rw [hfa]
    nlinarith
  have hf2 : generateFraudAmount category true u z ≤ 10000 := by
    rw [hfa]
    nlinarith
  have hf1c : ((3000 : ℤ) : ℚ) ≤ generateFraudAmount category true u z := by
    exact_mod_cast hf1
  have hf2c : generateFraudAmount category true u z ≤ ((10000 : ℤ) : ℚ) := by
    exact_mod_cast hf2
  obtain ⟨hfr1, hfr2⟩ := round2_bounds 3000 10000
    (generateFraudAmount category true u z) hf1c hf2c
  refine ⟨hlo, hhi, lt_of_lt_of_le hposq hlo, hr1, hr2,
    lt_of_lt_of_le hposq hr1, hf1, hf2, ?_, ?_, ?_, rfl⟩
  · exact_mod_cast hfr1
  · exact_mod_cast hfr2
  · have h3 : (0 : ℚ) < ((3000 : ℤ) : ℚ) := by norm_num
    exact lt_of_lt_of_le h3 hfr1

/-- Witness for C9 at a concrete category and concrete draws. -/
theorem C9_amount_witness : amountSpec "grocery" 5 (1/2) :=
  C9_amount_positive_in_range "grocery" 5 (1/2) (by norm_num) (by norm_num)

/-- Claim C10.  Metrics accumulate per delivery attempt: when the first
response flags a nonempty subset of a batch and the resubmission of that
subset fully succeeds, the failed counter keeps the first-attempt
failures, the sent counter counts the flagged records again, the batch and
byte counters advance once per attempt, and the total of sent plus failed
exceeds the number of records originally passed in. -/
theorem C10_metrics_accumulate_per_attempt :
    ∀ (size : Nat → Nat) (a : Nat) (as : List Nat) (k : Nat)
      (errs : List Bool) (m : Metrics) (b : Nat) (bs : List Nat),
      0 < k → k ≤ (a :: as).length →
      failedSubset (a :: as) errs = b :: bs →
      ∃ mf,
        putRecordsBatch size
          [ServiceResponse.results k errs, ServiceResponse.results 0 []]
          (a :: as) m
          = some (((a :: as).length - k, k), mf, [])
        ∧ mf.total_records_sent
            = m.total_records_sent + ((a :: as).length - k) + (b :: bs).length
        ∧ mf.total_records_failed = m.total_records_failed + k
        ∧ mf.total_batches_sent = m.total_batches_sent + 2
        ∧ mf.total_bytes_sent
            = m.total_bytes_sent + ((a :: as).map size).sum
                + ((b :: bs).map size).sum
        ∧ (a :: as).length
            < mf.total_records_sent + mf.total_records_failed
                - (m.total_records_sent + m.total_records_failed) := by
  intro size a as k errs m b bs hkpos hk hfs
  refine ⟨batchMetrics size (b :: bs) 0 (batchMetrics size (a :: as) k m),
    ?_, ?_, ?_, ?_, ?_, ?_⟩
  · simp only [putRecordsBatch, hfs, if_pos hkpos]
    norm_num
  · simp [batchMetrics]
  · simp [batchMetrics]
  · simp [batchMetrics]
  · simp [batchMetrics]
  · simp [batchMetrics]
    omega

/-- Witness for C10: a two-record batch whose second record is flagged and
then succeeds on resubmission; sent plus failed advances by three for two
original records. -/
theorem C10_metrics_witness :
    ∃ mf,
      putRecordsBatch (fun _ => 1)
        [ServiceResponse.results 1 [false, true], ServiceResponse.results 0 []]
        [0, 1] metrics0
        = some ((1, 1), mf, [])
      ∧ mf.total_records_sent = metrics0.total_records_sent + 1 + 1
      ∧ mf.total_records_failed = metrics0.total_records_failed + 1
      ∧ mf.total_batches_sent = metrics0.total_batches_sent + 2
      ∧ mf.total_bytes_sent = metrics0.total_bytes_sent
          + (([0, 1].map (fun _ => 1)).sum) + (([1].map (fun _ => 1)).sum)
      ∧ 2 < mf.total_records_sent + mf.total_records_failed
          - (metrics0.total_records_sent + metrics0.total_records_failed) :=
  C10_metrics_accumulate_per_attempt (fun _ => 1) 0 [1] 1 [false, true]
    metrics0 1 [] (by decide) (by decide) (by decide)
